import Mathlib

/-!
Shallow embedding of the `rubin` audio style-evaluation core
(`src/rubin/analyzer.py` and `src/rubin/evaluator.py`).

Modelling conventions:
* Python floats are modelled as exact rationals (`ℚ`); the claims are about
  the algebraic structure of the formulas, not float rounding.
* Python's `round(x, n)` is modelled as rounding `x * 10^n` to the nearest
  integer (exact float half-to-even ties are immaterial to every claim).
* Frequency-band dictionaries keyed by the seven fixed band names are
  modelled as total functions out of the inductive type `Band`.
* `Issue.message` strings carry `%`-formatted floats and are display-only;
  they are not modelled.  Category, severity, band and suggestion are.
-/

namespace Rubin

/-- The seven fixed frequency bands, in the dict-insertion order used by
`evaluator.py`'s `band_map`. -/
inductive Band
  | sub_bass
  | bass
  | low_mid
  | mid
  | upper_mid
  | presence
  | brilliance
deriving DecidableEq, Repr

/-- Band-name list in `band_map` insertion order. -/
def Band.all : List Band :=
  [.sub_bass, .bass, .low_mid, .mid, .upper_mid, .presence, .brilliance]

/-- The band's string name, as used for issue categories. -/
def Band.name : Band → String
  | .sub_bass => "sub_bass"
  | .bass => "bass"
  | .low_mid => "low_mid"
  | .mid => "mid"
  | .upper_mid => "upper_mid"
  | .presence => "presence"
  | .brilliance => "brilliance"

/-- `analyzer.SpectralFeatures`. -/
structure SpectralFeatures where
  centroid_mean : ℚ
  centroid_std : ℚ
  bandwidth_mean : ℚ
  rolloff_mean : ℚ
  flatness_mean : ℚ
deriving DecidableEq, Repr

/-- `analyzer.TimbreFeatures`. -/
structure TimbreFeatures where
  mfcc_means : List ℚ
  chroma_means : List ℚ
deriving DecidableEq, Repr

/-- `analyzer.LoudnessFeatures`. -/
structure LoudnessFeatures where
  rms_mean : ℚ
  rms_max : ℚ
  rms_min : ℚ
  dynamic_range_db : ℚ
deriving DecidableEq, Repr

/-- `analyzer.FrequencyBandEnergy`. -/
structure FrequencyBandEnergy where
  sub_bass : ℚ
  bass : ℚ
  low_mid : ℚ
  mid : ℚ
  upper_mid : ℚ
  presence : ℚ
  brilliance : ℚ
deriving DecidableEq, Repr

/-- `analyzer.StereoFeatures`. -/
structure StereoFeatures where
  width : ℚ
  balance : ℚ
  correlation : ℚ
deriving DecidableEq, Repr

/-- `analyzer.AudioAnalysis`. -/
structure AudioAnalysis where
  spectral : SpectralFeatures
  timbre : TimbreFeatures
  loudness : LoudnessFeatures
  frequency_bands : FrequencyBandEnergy
  stereo : StereoFeatures
  sample_rate : ℕ
  duration : ℚ
  num_channels : ℕ
deriving DecidableEq, Repr

/-- The `band_map` dict built at the top of `evaluate` and `audition`. -/
def band_map (bands : FrequencyBandEnergy) : Band → ℚ
  | .sub_bass => bands.sub_bass
  | .bass => bands.bass
  | .low_mid => bands.low_mid
  | .mid => bands.mid
  | .upper_mid => bands.upper_mid
  | .presence => bands.presence
  | .brilliance => bands.brilliance

/-- `evaluator.Range`: a closed interval with a deviation measure. -/
structure Range where
  low : ℚ
  high : ℚ
deriving DecidableEq, Repr

/-- `Range.contains`: `self.low <= value <= self.high`. -/
def Range.contains (r : Range) (value : ℚ) : Prop :=
  r.low ≤ value ∧ value ≤ r.high

instance (r : Range) (value : ℚ) : Decidable (r.contains value) := by
  unfold Range.contains; infer_instance

/-- `Range.deviation`: how far outside the range the value is (0 if inside). -/
def Range.deviation (r : Range) (value : ℚ) : ℚ :=
  if value < r.low then r.low - value
  else if value > r.high then value - r.high
  else 0

/-- `evaluator.StyleProfile`.  The `frequency_balance` dict is modelled as a
total function into `Option Range` (`dict.get` semantics). -/
structure StyleProfile where
  name : String
  description : String
  frequency_balance : Band → Option Range
  dynamic_range_db : Option Range
  brightness : Option Range
  stereo_width : Option Range
  rms_mean : Option Range

/-- `evaluator.Issue` (the display-only `message` field is not modelled). -/
structure Issue where
  category : String
  severity : String
  band : Option Band
  suggestion : String
deriving DecidableEq, Repr

/-- `evaluator.EvaluationResult`; `band_scores` is the per-band dict. -/
structure EvaluationResult where
  style : String
  cohesion_score : ℚ
  issues : List Issue
  band_scores : Band → ℚ

/-- `evaluator.AuditionResult`; `frequency_profile` is the per-band dict. -/
structure AuditionResult where
  style : String
  role : String
  fit_score : ℚ
  dominant_bands : List Band
  frequency_profile : Band → ℚ
  issues : List Issue

/-- Python `round(x, 1)` (ties immaterial to the claims). -/
def round1 (x : ℚ) : ℚ := (round (x * 10) : ℤ) / 10

/-- Python `round(x, 4)` (ties immaterial to the claims). -/
def round4 (x : ℚ) : ℚ := (round (x * 10000) : ℤ) / 10000

/-! ## `evaluate` (evaluator.py lines 146-354)

The single Python function body is split into named pieces; each piece is a
literal transcription of a contiguous block of the function. -/

/-- `span = (target.high - target.low) / 2 if target.high > target.low else 1.0`
(the band-loop and the dynamic-range/brightness blocks; the stereo-width block
uses `0.1` in place of `1.0`). -/
def bandSpan (target : Range) : ℚ :=
  if target.high > target.low then (target.high - target.low) / 2 else 1

/-- Band-loop score before rounding (evaluator.py lines 169-172):
`max(0.0, 100.0 - (dev / span) * 50) if span > 0 else 100.0`. -/
def bandScoreRaw (target : Range) (actual : ℚ) : ℚ :=
  let dev := target.deviation actual
  let span := bandSpan target
  if span > 0 then max 0 (100 - dev / span * 50) else 100

/-- `"high" if dev > span * 2 else "medium" if dev > span else "low"`. -/
def severityFor (dev span : ℚ) : String :=
  if dev > span * 2 then "high" else if dev > span then "medium" else "low"

/-- `_categorize_excess` (the string-keyed dict `.get(band, "excess")`; every
key of the `Band` type is present in the dict, so the default is unreachable). -/
def _categorize_excess : Band → String
  | .sub_bass => "rumble"
  | .bass => "mud"
  | .low_mid => "mud"
  | .mid => "masking"
  | .upper_mid => "harshness"
  | .presence => "harshness"
  | .brilliance => "sibilance"

/-- `_suggest_reduction` (every `Band` key present; default unreachable). -/
def _suggest_reduction : Band → String
  | .sub_bass => "Apply a high-pass filter around 30-40 Hz to tame sub-bass rumble."
  | .bass => "Cut 2-3 dB in the 100-250 Hz range to reduce muddiness."
  | .low_mid => "Dip the 250-500 Hz region to clear boxy buildup."
  | .mid => "Scoop 1-2 dB around 500-2000 Hz to reduce masking between elements."
  | .upper_mid => "Attenuate 2-4 kHz to reduce harshness and listening fatigue."
  | .presence => "Tame 4-6 kHz with a gentle cut to soften presence-range aggression."
  | .brilliance => "Roll off above 10 kHz or de-ess vocals to control sibilance."

/-- `_suggest_boost` (every `Band` key present; default unreachable). -/
def _suggest_boost : Band → String
  | .sub_bass => "Boost sub-bass with a low shelf or saturator below 60 Hz."
  | .bass => "Add warmth with a gentle boost around 80-150 Hz."
  | .low_mid => "A small lift around 300-400 Hz can add body to thin mixes."
  | .mid => "Boost midrange presence to help vocals and leads cut through."
  | .upper_mid => "A lift around 2-4 kHz adds clarity and articulation."
  | .presence => "Boost 4-6 kHz for more definition and attack."
  | .brilliance => "Add a high shelf boost above 8 kHz for air and sparkle."

/-- The issue emitted by one band-loop iteration (evaluator.py lines 176-206),
`none` when the actual value is inside the target range. -/
def bandIssue (band : Band) (target : Range) (actual : ℚ) : Option Issue :=
  let dev := target.deviation actual
  let span := bandSpan target
  if actual > target.high then
    some { category := _categorize_excess band
           severity := severityFor dev span
           band := some band
           suggestion := _suggest_reduction band }
  else if actual < target.low then
    some { category := "thin_" ++ band.name
           severity := severityFor dev span
           band := some band
           suggestion := _suggest_boost band }
  else none

/-- The scalar-target scoring shared by the dynamic-range, brightness and
stereo-width blocks (evaluator.py lines 212-218, 258-264, 301-307): `100.0`
when the target contains the value, otherwise the band-score formula with the
given degenerate-span default (`1.0` for dynamic range and brightness, `0.1`
for stereo width). -/
def scalarScore (target : Range) (actual degenerateSpan : ℚ) : ℚ :=
  if target.contains actual then 100
  else
    let dev := target.deviation actual
    let span :=
      if target.high > target.low then (target.high - target.low) / 2
      else degenerateSpan
    max 0 (100 - dev / span * 50)

/-- Dynamic-range issue (evaluator.py lines 219-252). -/
def drIssue (target : Range) (dr : ℚ) : Option Issue :=
  if target.contains dr then none
  else if dr < target.low then
    some { category := "over_compressed", severity := "medium", band := none
           suggestion := "Reduce compression ratio or raise threshold to restore dynamics." }
  else if dr > target.high then
    some { category := "under_compressed", severity := "low", band := none
           suggestion := "Apply gentle bus compression to tighten the dynamic range." }
  else none

/-- Brightness issue (evaluator.py lines 265-295). -/
def brightnessIssue (target : Range) (centroid : ℚ) : Option Issue :=
  if target.contains centroid then none
  else if centroid > target.high then
    some { category := "harshness", severity := "medium", band := some .upper_mid
           suggestion := "Roll off highs with a low-pass or shelf EQ above 8 kHz." }
  else
    some { category := "dullness", severity := "medium", band := some .presence
           suggestion := "Add a subtle high-shelf boost around 8-12 kHz for air." }

/-- Stereo-width issue (evaluator.py lines 308-341). -/
def widthIssue (target : Range) (width : ℚ) : Option Issue :=
  if target.contains width then none
  else if width > target.high then
    some { category := "too_wide", severity := "low", band := none
           suggestion := "Narrow the stereo image on low-frequency elements; check mono compatibility." }
  else
    some { category := "too_narrow", severity := "low", band := none
           suggestion := "Use subtle stereo widening on pads/reverbs, or pan elements further apart." }

/-- The `score_components` list accumulated by `evaluate`: one unrounded band
score per band that has a target, then one scalar score per present scalar
target, in source order. -/
def score_components (analysis : AudioAnalysis) (profile : StyleProfile) : List ℚ :=
  (Band.all.filterMap fun b =>
    (profile.frequency_balance b).map fun target =>
      bandScoreRaw target (band_map analysis.frequency_bands b))
  ++ (profile.dynamic_range_db.map fun target =>
        scalarScore target analysis.loudness.dynamic_range_db 1).toList
  ++ (profile.brightness.map fun target =>
        scalarScore target analysis.spectral.centroid_mean 1).toList
  ++ (profile.stereo_width.map fun target =>
        scalarScore target analysis.stereo.width (1/10)).toList

/-- The `issues` list accumulated by `evaluate`, in source append order. -/
def evaluate_issues (analysis : AudioAnalysis) (profile : StyleProfile) : List Issue :=
  (Band.all.filterMap fun b =>
    (profile.frequency_balance b).bind fun target =>
      bandIssue b target (band_map analysis.frequency_bands b))
  ++ (profile.dynamic_range_db.bind fun target =>
        drIssue target analysis.loudness.dynamic_range_db).toList
  ++ (profile.brightness.bind fun target =>
        brightnessIssue target analysis.spectral.centroid_mean).toList
  ++ (profile.stereo_width.bind fun target =>
        widthIssue target analysis.stereo.width).toList

/-- The `band_scores` dict: `100.0` for an untargeted band, otherwise the
band score rounded to one decimal. -/
def band_scores_of (analysis : AudioAnalysis) (profile : StyleProfile) : Band → ℚ :=
  fun b =>
    match profile.frequency_balance b with
    | none => 100
    | some target => round1 (bandScoreRaw target (band_map analysis.frequency_bands b))

/-- `evaluator.evaluate`. -/
def evaluate (analysis : AudioAnalysis) (profile : StyleProfile) : EvaluationResult :=
  let comps := score_components analysis profile
  { style := profile.name
    cohesion_score :=
      if comps.isEmpty then 100 else round1 (comps.sum / comps.length)
    issues := evaluate_issues analysis profile
    band_scores := band_scores_of analysis profile }

/-! ## `audition` (evaluator.py lines 357-467) and its helpers -/

/-- `total_energy = sum(band_map.values())`. -/
def total_energy_of (bm : Band → ℚ) : ℚ := (Band.all.map bm).sum

/-- The normalized `freq_profile` dict (evaluator.py lines 372-377). -/
def freq_profile_of (bm : Band → ℚ) : Band → ℚ :=
  if total_energy_of bm > 0 then fun b => bm b / total_energy_of bm
  else fun _ => 0

/-- `sorted(freq_profile.items(), key=lambda x: x[1], reverse=True)`:
a stable descending sort of the `(band, proportion)` pairs (Python `sorted`
is stable; so is insertion sort under the reversed-≤ relation). -/
def sorted_bands (fp : Band → ℚ) : List (Band × ℚ) :=
  List.insertionSort (fun a b : Band × ℚ => b.2 ≤ a.2)
    (Band.all.map fun b => (b, fp b))

/-- The dominant-band loop (evaluator.py lines 381-388): skip zero/negative
proportions, append, accumulate, break as soon as the cumulative proportion
reaches `0.7`. -/
def dominantLoop : List (Band × ℚ) → ℚ → List Band
  | [], _ => []
  | (band_name, proportion) :: rest, cumulative =>
    if proportion > 0 then
      let c := cumulative + proportion
      if c ≥ 0.7 then [band_name] else band_name :: dominantLoop rest c
    else dominantLoop rest cumulative

/-- The `dominant` list computed by `audition`. -/
def dominant_of (fp : Band → ℚ) : List Band := dominantLoop (sorted_bands fp) 0

/-- `max` of a nonempty list of proportions (`max(band_values)`). -/
def maxList : List ℚ → ℚ
  | [] => 0
  | x :: xs => xs.foldl max x

/-- `min` of a nonempty list of proportions (`min(band_values)`). -/
def minList : List ℚ → ℚ
  | [] => 0
  | x :: xs => xs.foldl min x

/-- `evaluator._classify_role`.  `band_values` is the 7-element list of band
proportions, so the source's `if band_values:` emptiness guard always passes
and is dropped. -/
def _classify_role (analysis : AudioAnalysis) (freq_profile : Band → ℚ) : String :=
  let low_energy := freq_profile .sub_bass + freq_profile .bass
  let mid_energy := freq_profile .mid + freq_profile .upper_mid
  let high_energy := freq_profile .presence + freq_profile .brilliance
  if analysis.loudness.dynamic_range_db > 20 ∧ high_energy > 0.25 then "percussion"
  else if analysis.spectral.flatness_mean > 0.3 then "texture"
  else if low_energy > 0.5 then "bass"
  else
    let band_values := Band.all.map freq_profile
    let spread := maxList band_values - minList band_values
    if spread < 0.2 ∧ analysis.stereo.width > 0.1 then "pad"
    else if mid_energy > 0.3 then "lead"
    else "lead"

/-- `evaluator._role_band_affinity`: `(primary, avoid)` band lists, with the
`.get(role, {"primary": ["mid"], "avoid": []})` fallback. -/
def _role_band_affinity (role : String) : List Band × List Band :=
  if role = "bass" then ([.sub_bass, .bass], [.upper_mid, .presence, .brilliance])
  else if role = "lead" then ([.mid, .upper_mid, .presence], [.sub_bass])
  else if role = "pad" then ([.low_mid, .mid], [])
  else if role = "percussion" then ([.presence, .brilliance, .upper_mid], [.sub_bass])
  else if role = "texture" then ([.mid, .presence, .brilliance], [])
  else ([.mid], [])

/-- `evaluator._role_conflict_suggestion` (dict keyed by `(role, band)` with a
generic fallback). -/
def _role_conflict_suggestion (role : String) (band : Band) : String :=
  if role = "bass" ∧ band = .upper_mid then
    "Apply a low-pass filter around 2-4 kHz to keep the bass focused in the low end."
  else if role = "bass" ∧ band = .presence then
    "Roll off above 4 kHz — bass elements rarely need presence-range energy."
  else if role = "bass" ∧ band = .brilliance then
    "Filter out high frequencies above 6 kHz to avoid interference with cymbals/hats."
  else if role = "lead" ∧ band = .sub_bass then
    "High-pass the lead around 80-100 Hz to avoid competing with the bass."
  else if role = "percussion" ∧ band = .sub_bass then
    "High-pass percussion above 60 Hz unless it\x27s a kick drum."
  else
    "Consider reducing " ++ band.name ++ " energy on this " ++ role ++ " element."

/-- The `fit_components` list (evaluator.py lines 397-413): the primary-band
score always, plus the avoid-band penalty when the summed avoid proportion
exceeds `0.15`. -/
def fit_components_of (role : String) (fp : Band → ℚ) : List ℚ :=
  let primary_bands := (_role_band_affinity role).1
  let avoid_bands := (_role_band_affinity role).2
  let primary_energy := (primary_bands.map fp).sum
  let primary_score := min 100 (primary_energy * 200)
  let avoid_energy := (avoid_bands.map fp).sum
  if avoid_energy > 0.15 then
    [primary_score, max 0 (100 - (avoid_energy - 0.15) * 400)]
  else [primary_score]

/-- The `role_conflict` issues emitted inside the avoid-penalty branch
(evaluator.py lines 414-429): one per avoid band whose individual proportion
exceeds `0.1`. -/
def role_conflict_issues (role : String) (avoid_bands : List Band)
    (fp : Band → ℚ) : List Issue :=
  avoid_bands.filterMap fun b =>
    if fp b > 0.1 then
      some { category := "role_conflict", severity := "medium", band := some b
             suggestion := _role_conflict_suggestion role b }
    else none

/-- The `excess_for_style` issues for dominant bands (evaluator.py lines
431-454). -/
def style_fit_issues (profile : StyleProfile) (bm : Band → ℚ)
    (dominant : List Band) : List Issue :=
  dominant.filterMap fun band_name =>
    match profile.frequency_balance band_name with
    | none => none
    | some target =>
      if bm band_name > target.high * 1.5 then
        some { category := "excess_for_style", severity := "low", band := some band_name
               suggestion := "Consider taming " ++ band_name.name
                 ++ " on this track to leave room for other elements." }
      else none

/-- `evaluator.audition` (`role := none` is the Python default argument). -/
def audition (analysis : AudioAnalysis) (profile : StyleProfile)
    (role? : Option String := none) : AuditionResult :=
  let bm := band_map analysis.frequency_bands
  let fp := freq_profile_of bm
  let dominant := dominant_of fp
  let role := role?.getD (_classify_role analysis fp)
  let avoid_bands := (_role_band_affinity role).2
  let avoid_energy := (avoid_bands.map fp).sum
  let fit_components := fit_components_of role fp
  let issues :=
    (if avoid_energy > 0.15 then role_conflict_issues role avoid_bands fp else [])
    ++ style_fit_issues profile bm dominant
  { style := profile.name
    role := role
    fit_score :=
      round1 (if ¬ fit_components.isEmpty
              then fit_components.sum / fit_components.length else 100)
    dominant_bands := dominant
    frequency_profile := fun b => round4 (fp b)
    issues := issues }

/-! ## `analyzer.py`: the numeric tail of `analyze`

The spectral/timbral feature extraction is a library call (librosa) and is
out of scope; the repository's own arithmetic — `_band_energy`, the dynamic
range guard, and the stereo block — is embedded below.  `np.mean` of a list
is its sum over its length (the empty case only ever feeds guards that
resolve it to the same safe value as numpy's NaN).  `np.log10` and
`np.corrcoef` are irrational-valued library functions and are taken as
opaque function parameters; `np.std(x) > 0` is equivalently modelled as
`variance x > 0` to stay in ℚ. -/

/-- The `(freqs >= lo) & (freqs < hi)` mask applied to the parallel arrays
`freqs`, `S` (zipped): the selected `(frequency, magnitude)` bins. -/
def band_energy_sel (S freqs : List ℚ) (lo hi : ℚ) : List (ℚ × ℚ) :=
  (freqs.zip S).filter fun p => decide (lo ≤ p.1 ∧ p.1 < hi)

/-- `analyzer._band_energy`: mean of the spectrum values whose frequency lies
in `[lo, hi)`, `0.0` when the mask selects nothing. -/
def _band_energy (S freqs : List ℚ) (lo hi : ℚ) : ℚ :=
  let sel := band_energy_sel S freqs lo hi
  if sel.isEmpty then 0
  else (sel.map Prod.snd).sum / sel.length

/-- `np.mean` of a list of rationals. -/
def npMean (xs : List ℚ) : ℚ := xs.sum / xs.length

/-- Population variance, `np.std(xs) ** 2`. -/
def variance (xs : List ℚ) : ℚ := npMean (xs.map fun x => (x - npMean xs) ^ 2)

/-- The dynamic-range computation (analyzer.py lines 110-114), with `log10`
as an opaque parameter for `np.log10`. -/
def dynamic_range_db_of (log10 : ℚ → ℚ) (rms_min rms_max : ℚ) : ℚ :=
  if rms_min > 0 ∧ rms_max > 0 then 20 * log10 (rms_max / rms_min) else 0

/-- Stereo width (analyzer.py lines 138-144). -/
def stereoWidth (left right : List ℚ) : ℚ :=
  let mid_signal := (left.zip right).map fun p => (p.1 + p.2) / 2
  let side_signal := (left.zip right).map fun p => (p.1 - p.2) / 2
  let mid_energy := npMean (mid_signal.map fun x => x ^ 2)
  let side_energy := npMean (side_signal.map fun x => x ^ 2)
  let total_energy := mid_energy + side_energy
  if total_energy > 0 then side_energy / total_energy else 0

/-- Stereo balance (analyzer.py lines 146-149). -/
def stereoBalance (left right : List ℚ) : ℚ :=
  let left_energy := npMean (left.map fun x => x ^ 2)
  let right_energy := npMean (right.map fun x => x ^ 2)
  let total_lr := left_energy + right_energy
  if total_lr > 0 then (right_energy - left_energy) / total_lr else 0

/-- Stereo correlation (analyzer.py lines 151-158), with `corrcoef` as an
opaque parameter for `np.corrcoef(left, right)[0, 1]`. -/
def correlation_of (corrcoef : List ℚ → List ℚ → ℚ) (left right : List ℚ) : ℚ :=
  if left.length > 0 then
    if variance left > 0 ∧ variance right > 0 then corrcoef left right else 1
  else 1

/-! ## Spec-side definitions (for refinement claims)

These follow the spec's words, to be compared with the definitions
transcribed from the source. -/

/-- The scoring formula as the spec states it: `dev = target.deviation(actual)`;
`span = (high-low)/2` if `high > low` else the degenerate default (`0.1` for
stereo width, `1.0` otherwise); `score = max(0, 100 - (dev/span)*50)`. -/
def specScore (target : Range) (actual degenerateSpan : ℚ) : ℚ :=
  max 0 (100 - target.deviation actual /
    (if target.high > target.low then (target.high - target.low) / 2
     else degenerateSpan) * 50)

/-- The cohesion components as the spec states them: one spec-formula score
per band with a target, plus one per present scalar target (dynamic range and
brightness with degenerate span `1.0`, stereo width with `0.1`). -/
def specComponents (analysis : AudioAnalysis) (profile : StyleProfile) : List ℚ :=
  (Band.all.filterMap fun b =>
    (profile.frequency_balance b).map fun target =>
      specScore target (band_map analysis.frequency_bands b) 1)
  ++ (profile.dynamic_range_db.map fun target =>
        specScore target analysis.loudness.dynamic_range_db 1).toList
  ++ (profile.brightness.map fun target =>
        specScore target analysis.spectral.centroid_mean 1).toList
  ++ (profile.stereo_width.map fun target =>
        specScore target analysis.stereo.width (1/10)).toList

/-- The role decision order as the spec states it: a fixed first-match rule
list — percussion, texture, bass, pad, lead, default lead. -/
def classifyRoleSpec (analysis : AudioAnalysis) (fp : Band → ℚ) : String :=
  if analysis.loudness.dynamic_range_db > 20 ∧ fp .presence + fp .brilliance > 0.25 then
    "percussion"
  else if analysis.spectral.flatness_mean > 0.3 then "texture"
  else if fp .sub_bass + fp .bass > 0.5 then "bass"
  else if maxList (Band.all.map fp) - minList (Band.all.map fp) < 0.2
      ∧ analysis.stereo.width > 0.1 then "pad"
  else if fp .mid + fp .upper_mid > 0.3 then "lead"
  else "lead"

/-! ## Concrete sample inputs (used by witnesses and counterexamples) -/

/-- A concrete analysis with the given band energies and otherwise-zero
features. -/
def mkAnalysis (fb : FrequencyBandEnergy) : AudioAnalysis :=
  { spectral := ⟨0, 0, 0, 0, 0⟩
    timbre := ⟨[], []⟩
    loudness := ⟨0, 0, 0, 0⟩
    frequency_bands := fb
    stereo := ⟨0, 0, 0⟩
    sample_rate := 44100
    duration := 1
    num_channels := 2 }

/-- A concrete profile with a single band target on `bass` and the given
scalar targets. -/
def mkBassProfile (r : Range) (dr br sw rm : Option Range) : StyleProfile :=
  { name := "sample"
    description := "sample profile"
    frequency_balance := fun b => if b = .bass then some r else none
    dynamic_range_db := dr
    brightness := br
    stereo_width := sw
    rms_mean := rm }

/-! ## Helper lemmas -/

lemma evaluate_band_scores (analysis : AudioAnalysis) (profile : StyleProfile) :
    (evaluate analysis profile).band_scores = band_scores_of analysis profile := rfl

lemma evaluate_cohesion (analysis : AudioAnalysis) (profile : StyleProfile) :
    (evaluate analysis profile).cohesion_score =
      if (score_components analysis profile).isEmpty then 100
      else round1 ((score_components analysis profile).sum /
        (score_components analysis profile).length) := rfl

lemma evaluate_issues_eq (analysis : AudioAnalysis) (profile : StyleProfile) :
    (evaluate analysis profile).issues = evaluate_issues analysis profile := rfl

lemma audition_role_eq (analysis : AudioAnalysis) (profile : StyleProfile)
    (role? : Option String) :
    (audition analysis profile role?).role =
      role?.getD (_classify_role analysis
        (freq_profile_of (band_map analysis.frequency_bands))) := rfl

lemma audition_dominant_eq (analysis : AudioAnalysis) (profile : StyleProfile)
    (role? : Option String) :
    (audition analysis profile role?).dominant_bands =
      dominant_of (freq_profile_of (band_map analysis.frequency_bands)) := rfl

lemma audition_freq_profile_eq (analysis : AudioAnalysis) (profile : StyleProfile)
    (role? : Option String) :
    (audition analysis profile role?).frequency_profile =
      fun b => round4 (freq_profile_of (band_map analysis.frequency_bands) b) := rfl

lemma audition_issues_eq (analysis : AudioAnalysis) (profile : StyleProfile)
    (role? : Option String) :
    (audition analysis profile role?).issues =
      (if ((_role_band_affinity ((audition analysis profile role?).role)).2.map
            (freq_profile_of (band_map analysis.frequency_bands))).sum > 0.15
       then role_conflict_issues ((audition analysis profile role?).role)
              ((_role_band_affinity ((audition analysis profile role?).role)).2)
              (freq_profile_of (band_map analysis.frequency_bands))
       else [])
      ++ style_fit_issues profile (band_map analysis.frequency_bands)
          (dominant_of (freq_profile_of (band_map analysis.frequency_bands))) := rfl

lemma Range.contains_iff_deviation_eq_zero (r : Range) (v : ℚ) :
    r.contains v ↔ r.deviation v = 0 := by
  unfold Range.contains Range.deviation
  split_ifs with h1 h2
  · constructor
    · rintro ⟨hl, _⟩; linarith
    · intro h; constructor <;> linarith
  · constructor
    · rintro ⟨_, hh⟩; linarith
    · intro h; constructor <;> linarith
  · exact ⟨fun _ => rfl, fun _ => ⟨not_lt.mp h1, not_lt.mp h2⟩⟩

lemma bandSpan_pos (target : Range) : 0 < bandSpan target := by
  unfold bandSpan
  split_ifs with h
  · linarith
  · norm_num

lemma bandScoreRaw_of_contains (target : Range) (actual : ℚ)
    (h : target.contains actual) : bandScoreRaw target actual = 100 := by
  have hd : target.deviation actual = 0 :=
    (Range.contains_iff_deviation_eq_zero target actual).mp h
  unfold bandScoreRaw
  rw [if_pos (bandSpan_pos target), hd]
  norm_num

lemma scalarScore_of_contains (target : Range) (actual degenerateSpan : ℚ)
    (h : target.contains actual) : scalarScore target actual degenerateSpan = 100 := by
  unfold scalarScore
  rw [if_pos h]

lemma bandIssue_of_contains (band : Band) (target : Range) (actual : ℚ)
    (h : target.contains actual) : bandIssue band target actual = none := by
  obtain ⟨hl, hh⟩ := h
  unfold bandIssue
  rw [if_neg (by linarith), if_neg (by linarith)]

lemma bandScoreRaw_eq_spec (target : Range) (actual : ℚ) :
    bandScoreRaw target actual = specScore target actual 1 := by
  unfold bandScoreRaw specScore bandSpan
  by_cases h : target.high > target.low
  · simp only [if_pos h]
    rw [if_pos (by linarith : (target.high - target.low) / 2 > 0)]
  · simp only [if_neg h]
    rw [if_pos (by norm_num : (1 : ℚ) > 0)]

lemma scalarScore_eq_spec (target : Range) (actual degenerateSpan : ℚ) :
    scalarScore target actual degenerateSpan = specScore target actual degenerateSpan := by
  unfold scalarScore specScore
  by_cases h : target.contains actual
  · rw [if_pos h]
    have hd : target.deviation actual = 0 :=
      (Range.contains_iff_deviation_eq_zero target actual).mp h
    rw [hd]
    simp
  · rw [if_neg h]

lemma length_filterMap_map {α β γ : Type} (l : List α) (g : α → Option β)
    (h : α → β → γ) :
    (l.filterMap fun b => (g b).map (h b)).length =
      (l.filter fun b => (g b).isSome).length := by
  induction l with
  | nil => rfl
  | cons a t ih =>
    cases hg : g a <;>
      simp [List.filterMap_cons, hg, List.filter_cons, ih]

lemma length_option_toList {α β : Type} (o : Option α) (f : α → β) :
    ((o.map f).toList).length = if o.isSome then 1 else 0 := by
  cases o <;> rfl

lemma sum_of_all_100 (l : List ℚ) (h : ∀ x ∈ l, x = 100) :
    l.sum = 100 * l.length := by
  induction l with
  | nil => simp
  | cons a t ih =>
    have ha : a = 100 := h a (List.mem_cons_self a t)
    have ht := ih fun x hx => h x (List.mem_cons_of_mem a hx)
    simp [List.sum_cons, ha, ht]
    ring

lemma round1_100 : round1 100 = 100 := by
  norm_num [round1, round_eq]

lemma drIssue_of_contains (target : Range) (dr : ℚ) (h : target.contains dr) :
    drIssue target dr = none := by
  unfold drIssue
  rw [if_pos h]

lemma brightnessIssue_of_contains (target : Range) (c : ℚ) (h : target.contains c) :
    brightnessIssue target c = none := by
  unfold brightnessIssue
  rw [if_pos h]

lemma widthIssue_of_contains (target : Range) (w : ℚ) (h : target.contains w) :
    widthIssue target w = none := by
  unfold widthIssue
  rw [if_pos h]

lemma score_components_all_100 (analysis : AudioAnalysis) (profile : StyleProfile)
    (hb : ∀ b target, profile.frequency_balance b = some target →
      target.contains (band_map analysis.frequency_bands b))
    (hdr : ∀ target, profile.dynamic_range_db = some target →
      target.contains analysis.loudness.dynamic_range_db)
    (hbr : ∀ target, profile.brightness = some target →
      target.contains analysis.spectral.centroid_mean)
    (hsw : ∀ target, profile.stereo_width = some target →
      target.contains analysis.stereo.width) :
    ∀ x ∈ score_components analysis profile, x = 100 := by
  intro x hx
  unfold score_components at hx
  rcases List.mem_append.mp hx with h123 | h4
  case inr =>
    obtain ⟨t, ht, hv⟩ := Option.map_eq_some'.mp (Option.mem_toList.mp h4)
    rw [← hv]
    exact scalarScore_of_contains t _ _ (hsw t ht)
  rcases List.mem_append.mp h123 with h12 | h3
  case inr =>
    obtain ⟨t, ht, hv⟩ := Option.map_eq_some'.mp (Option.mem_toList.mp h3)
    rw [← hv]
    exact scalarScore_of_contains t _ _ (hbr t ht)
  rcases List.mem_append.mp h12 with h1 | h2
  case inr =>
    obtain ⟨t, ht, hv⟩ := Option.map_eq_some'.mp (Option.mem_toList.mp h2)
    rw [← hv]
    exact scalarScore_of_contains t _ _ (hdr t ht)
  obtain ⟨b, -, hmap⟩ := List.mem_filterMap.mp h1
  obtain ⟨t, ht, hv⟩ := Option.map_eq_some'.mp hmap
  rw [← hv]
  exact bandScoreRaw_of_contains t _ (hb b t ht)

lemma evaluate_issues_all_contained (analysis : AudioAnalysis) (profile : StyleProfile)
    (hb : ∀ b target, profile.frequency_balance b = some target →
      target.contains (band_map analysis.frequency_bands b))
    (hdr : ∀ target, profile.dynamic_range_db = some target →
      target.contains analysis.loudness.dynamic_range_db)
    (hbr : ∀ target, profile.brightness = some target →
      target.contains analysis.spectral.centroid_mean)
    (hsw : ∀ target, profile.stereo_width = some target →
      target.contains analysis.stereo.width) :
    evaluate_issues analysis profile = [] := by
  unfold evaluate_issues
  have h1 : (Band.all.filterMap fun b =>
      (profile.frequency_balance b).bind fun target =>
        bandIssue b target (band_map analysis.frequency_bands b)) = [] := by
    rw [List.filterMap_eq_nil_iff]
    intro b _
    cases ht : profile.frequency_balance b with
    | none => rfl
    | some t => simp [Option.bind, bandIssue_of_contains b t _ (hb b t ht)]
  have h2 : (profile.dynamic_range_db.bind fun target =>
      drIssue target analysis.loudness.dynamic_range_db) = none := by
    cases ht : profile.dynamic_range_db with
    | none => rfl
    | some t => simp [Option.bind, drIssue_of_contains t _ (hdr t ht)]
  have h3 : (profile.brightness.bind fun target =>
      brightnessIssue target analysis.spectral.centroid_mean) = none := by
    cases ht : profile.brightness with
    | none => rfl
    | some t => simp [Option.bind, brightnessIssue_of_contains t _ (hbr t ht)]
  have h4 : (profile.stereo_width.bind fun target =>
      widthIssue target analysis.stereo.width) = none := by
    cases ht : profile.stereo_width with
    | none => rfl
    | some t => simp [Option.bind, widthIssue_of_contains t _ (hsw t ht)]
  rw [h1, h2, h3, h4]
  rfl

lemma sum_freq_profile_eq_one (bm : Band → ℚ) (h : 0 < total_energy_of bm) :
    (Band.all.map (freq_profile_of bm)).sum = 1 := by
  have hne : total_energy_of bm ≠ 0 := ne_of_gt h
  unfold freq_profile_of
  rw [if_pos h]
  have hdiv : (Band.all.map fun b => bm b / total_energy_of bm).sum
      = (Band.all.map bm).sum / total_energy_of bm := by
    simp only [Band.all, List.map_cons, List.map_nil, List.sum_cons, List.sum_nil]
    ring
  rw [hdiv, show (Band.all.map bm).sum = total_energy_of bm from rfl]
  exact div_self hne

lemma abs_round4_sub (x : ℚ) : |round4 x - x| ≤ 1 / 20000 := by
  have h := abs_sub_round (x * 10000)
  rw [abs_sub_comm] at h
  have h2 : round4 x - x = ((round (x * 10000) : ℚ) - x * 10000) / 10000 := by
    unfold round4
    ring
  rw [h2, abs_div, abs_of_pos (show (0 : ℚ) < 10000 by norm_num)]
  linarith

lemma sum_round4_close (bm : Band → ℚ) (h : 0 < total_energy_of bm) :
    |(Band.all.map fun b => round4 (freq_profile_of bm b)).sum - 1| ≤ 1 / 100 := by
  have hsum := sum_freq_profile_eq_one bm h
  simp only [Band.all, List.map_cons, List.map_nil, List.sum_cons,
    List.sum_nil] at hsum ⊢
  have h1 := abs_round4_sub (freq_profile_of bm .sub_bass)
  have h2 := abs_round4_sub (freq_profile_of bm .bass)
  have h3 := abs_round4_sub (freq_profile_of bm .low_mid)
  have h4 := abs_round4_sub (freq_profile_of bm .mid)
  have h5 := abs_round4_sub (freq_profile_of bm .upper_mid)
  have h6 := abs_round4_sub (freq_profile_of bm .presence)
  have h7 := abs_round4_sub (freq_profile_of bm .brilliance)
  rw [abs_le] at h1 h2 h3 h4 h5 h6 h7 ⊢
  constructor <;> [linarith; linarith]

lemma sorted_bands_mem_snd (fp : Band → ℚ) :
    ∀ x ∈ sorted_bands fp, x.2 = fp x.1 := by
  intro x hx
  have hmem : x ∈ Band.all.map fun b => (b, fp b) :=
    ((List.perm_insertionSort _ _).mem_iff).mp hx
  obtain ⟨b, -, rfl⟩ := List.mem_map.mp hmem
  rfl

lemma sorted_bands_mem (fp : Band → ℚ) (b : Band) :
    (b, fp b) ∈ sorted_bands fp := by
  apply ((List.perm_insertionSort _ _).mem_iff).mpr
  exact List.mem_map.mpr ⟨b, by cases b <;> simp [Band.all], rfl⟩

lemma dominantLoop_spec (fp : Band → ℚ) :
    ∀ (l : List (Band × ℚ)) (cum : ℚ), (∀ x ∈ l, x.2 = fp x.1) → cum < 0.7 →
      (∀ b ∈ dominantLoop l cum, fp b > 0) ∧
      (∀ n < (dominantLoop l cum).length,
        cum + (((dominantLoop l cum).take n).map fp).sum < 0.7) ∧
      (cum + ((dominantLoop l cum).map fp).sum ≥ 0.7 ∨
        ∀ x ∈ l, x.2 > 0 → x.1 ∈ dominantLoop l cum) := by
  intro l
  induction l with
  | nil =>
    intro cum hl hcum
    refine ⟨by simp [dominantLoop], by simp [dominantLoop], Or.inr (by simp)⟩
  | cons hd tl ih =>
    intro cum hl hcum
    obtain ⟨b, p⟩ := hd
    have hpb : p = fp b := hl (b, p) (List.mem_cons_self _ _)
    by_cases hp : p > 0
    · by_cases hc : cum + p ≥ 0.7
      · have hdl : dominantLoop ((b, p) :: tl) cum = [b] := by
          simp [dominantLoop, hp, hc]
        rw [hdl]
        refine ⟨?_, ?_, Or.inl ?_⟩
        · intro b' hb'
          rcases List.mem_singleton.mp hb' with rfl
          rw [← hpb]
          exact hp
        · intro n hn
          have hn0 : n = 0 := by
            simp only [List.length_singleton] at hn
            omega
          subst hn0
          simpa using hcum
        · simp only [List.map_cons, List.map_nil, List.sum_cons, List.sum_nil]
          rw [← hpb]
          linarith
      · have hc' : cum + p < 0.7 := not_le.mp hc
        have hdl : dominantLoop ((b, p) :: tl) cum =
            b :: dominantLoop tl (cum + p) := by
          simp [dominantLoop, hp, hc]
        have htl : ∀ x ∈ tl, x.2 = fp x.1 :=
          fun x hx => hl x (List.mem_cons_of_mem _ hx)
        obtain ⟨ih1, ih2, ih3⟩ := ih (cum + p) htl hc'
        rw [hdl]
        refine ⟨?_, ?_, ?_⟩
        · intro b' hb'
          rcases List.mem_cons.mp hb' with rfl | hb'
          · rw [← hpb]
            exact hp
          · exact ih1 b' hb'
        · intro n hn
          cases n with
          | zero => simpa using hcum
          | succ m =>
            simp only [List.take_succ_cons, List.map_cons, List.sum_cons]
            have hm : m < (dominantLoop tl (cum + p)).length := by
              simpa using hn
            have hih := ih2 m hm
            rw [← hpb]
            linarith
        · rcases ih3 with h1 | h1
          · left
            simp only [List.map_cons, List.sum_cons]
            rw [← hpb]
            linarith
          · right
            intro x hx hxp
            rcases List.mem_cons.mp hx with rfl | hx
            · exact List.mem_cons_self _ _
            · exact List.mem_cons_of_mem _ (h1 x hx hxp)
    · have hdl : dominantLoop ((b, p) :: tl) cum = dominantLoop tl cum := by
        simp [dominantLoop, hp]
      have htl : ∀ x ∈ tl, x.2 = fp x.1 :=
        fun x hx => hl x (List.mem_cons_of_mem _ hx)
      obtain ⟨ih1, ih2, ih3⟩ := ih cum htl hcum
      rw [hdl]
      refine ⟨ih1, ih2, ?_⟩
      rcases ih3 with h1 | h1
      · exact Or.inl h1
      · right
        intro x hx hxp
        rcases List.mem_cons.mp hx with rfl | hx
        · exact absurd hxp hp
        · exact h1 x hx hxp

/-! ## Claims -/

/-- C7: for every `Range` `r` and value `v`, `r.contains v` holds iff
`r.deviation v = 0`, where `contains` is `low ≤ v ≤ high` and `deviation`
is `0` inside, `low - v` below, `v - high` above. -/
theorem C7_contains_iff_deviation_zero (r : Range) (v : ℚ) :
    r.contains v ↔ r.deviation v = 0 :=
  Range.contains_iff_deviation_eq_zero r v

/-- C2 counterexample: with target range `[0, 2]` (span `= 1`) and measured
bass energy `3` (deviation `= 1 =` span, one span-width beyond the high
boundary), `evaluate` gives that band a score of `50`, not `0`. -/
theorem C2_counterexample :
    (Range.mk 0 2).deviation 3 = bandSpan ⟨0, 2⟩ ∧
    (evaluate (mkAnalysis ⟨0, 3, 0, 0, 0, 0, 0⟩)
        (mkBassProfile ⟨0, 2⟩ none none none none)).band_scores .bass = 50 ∧
    (evaluate (mkAnalysis ⟨0, 3, 0, 0, 0, 0, 0⟩)
        (mkBassProfile ⟨0, 2⟩ none none none none)).band_scores .bass ≠ 0 := by
  refine ⟨by norm_num [Range.deviation, bandSpan], ?_, ?_⟩ <;>
    norm_num [evaluate_band_scores, band_scores_of, mkBassProfile, mkAnalysis,
      band_map, bandScoreRaw, bandSpan, Range.deviation, round1, round_eq]

/-- C2 amended: a targeted metric measured exactly one span-width beyond a
range boundary (deviation `=` span) receives a score of `50` from `evaluate`;
the score reaches `0` at deviation `= 2 ×` span. -/
theorem C2_amended_span_scores (analysis : AudioAnalysis) (profile : StyleProfile)
    (b : Band) (target : Range)
    (h : profile.frequency_balance b = some target) :
    (target.deviation (band_map analysis.frequency_bands b) = bandSpan target →
      (evaluate analysis profile).band_scores b = 50) ∧
    (target.deviation (band_map analysis.frequency_bands b) = 2 * bandSpan target →
      (evaluate analysis profile).band_scores b = 0) := by
  have hbs : (evaluate analysis profile).band_scores b =
      round1 (bandScoreRaw target (band_map analysis.frequency_bands b)) := by
    show band_scores_of analysis profile b = _
    unfold band_scores_of
    rw [h]
  have hspan := bandSpan_pos target
  constructor
  · intro hdev
    rw [hbs]
    unfold bandScoreRaw
    rw [if_pos hspan, hdev, div_self (ne_of_gt hspan)]
    norm_num [round1]
  · intro hdev
    rw [hbs]
    unfold bandScoreRaw
    rw [if_pos hspan, hdev, mul_div_assoc, div_self (ne_of_gt hspan)]
    norm_num [round1]

/-- Witness for the amended C2, at target `[0, 2]` with measured values `3`
(deviation `1 =` span) and `4` (deviation `2 = 2 ×` span). -/
theorem C2_amended_span_scores_witness :
    (evaluate (mkAnalysis ⟨0, 3, 0, 0, 0, 0, 0⟩)
      (mkBassProfile ⟨0, 2⟩ none none none none)).band_scores .bass = 50 ∧
    (evaluate (mkAnalysis ⟨0, 4, 0, 0, 0, 0, 0⟩)
      (mkBassProfile ⟨0, 2⟩ none none none none)).band_scores .bass = 0 :=
  ⟨(C2_amended_span_scores (mkAnalysis ⟨0, 3, 0, 0, 0, 0, 0⟩)
      (mkBassProfile ⟨0, 2⟩ none none none none) .bass ⟨0, 2⟩ rfl).1
      (by norm_num [Range.deviation, bandSpan, mkAnalysis, band_map]),
   (C2_amended_span_scores (mkAnalysis ⟨0, 4, 0, 0, 0, 0, 0⟩)
      (mkBassProfile ⟨0, 2⟩ none none none none) .bass ⟨0, 2⟩ rfl).2
      (by norm_num [Range.deviation, bandSpan, mkAnalysis, band_map])⟩

/-- C10: `evaluate` never reads the profile's `rms_mean` target — two profiles
that agree on every other field produce identical evaluation results
(cohesion score, band scores and issues alike). -/
theorem C10_rms_mean_never_read (analysis : AudioAnalysis) (p1 p2 : StyleProfile)
    (hname : p1.name = p2.name)
    (hdesc : p1.description = p2.description)
    (hfb : p1.frequency_balance = p2.frequency_balance)
    (hdr : p1.dynamic_range_db = p2.dynamic_range_db)
    (hbr : p1.brightness = p2.brightness)
    (hsw : p1.stereo_width = p2.stereo_width) :
    evaluate analysis p1 = evaluate analysis p2 := by
  obtain ⟨n1, d1, f1, r1, b1, s1, m1⟩ := p1
  obtain ⟨n2, d2, f2, r2, b2, s2, m2⟩ := p2
  simp only at hname hdesc hfb hdr hbr hsw
  subst hname hdesc hfb hdr hbr hsw
  rfl

/-- Witness for C10: two concrete profiles differing only in `rms_mean`
(absent vs `[0, 1]`). -/
theorem C10_rms_mean_never_read_witness :
    evaluate (mkAnalysis ⟨1, 2, 3, 4, 5, 6, 7⟩)
        (mkBassProfile ⟨0, 2⟩ none none none none) =
      evaluate (mkAnalysis ⟨1, 2, 3, 4, 5, 6, 7⟩)
        (mkBassProfile ⟨0, 2⟩ none none none (some ⟨0, 1⟩)) :=
  C10_rms_mean_never_read _ _ _ rfl rfl rfl rfl rfl rfl

/-- C8: `_band_energy` selects exactly the bins with `lo ≤ freq < hi`,
returns the arithmetic mean of their magnitudes, and returns `0.0` (it is
total, with no division by zero) when no bin falls in the interval. -/
theorem C8_band_energy_mean (S freqs : List ℚ) (lo hi : ℚ) :
    (∀ p : ℚ × ℚ, p ∈ band_energy_sel S freqs lo hi ↔
      p ∈ freqs.zip S ∧ lo ≤ p.1 ∧ p.1 < hi) ∧
    (band_energy_sel S freqs lo hi = [] → _band_energy S freqs lo hi = 0) ∧
    (band_energy_sel S freqs lo hi ≠ [] →
      _band_energy S freqs lo hi =
        ((band_energy_sel S freqs lo hi).map Prod.snd).sum /
          (band_energy_sel S freqs lo hi).length) := by
  refine ⟨?_, ?_, ?_⟩
  · intro p
    simp [band_energy_sel, List.mem_filter]
  · intro h
    unfold _band_energy
    rw [h]
    rfl
  · intro h
    unfold _band_energy
    rw [if_neg (by simpa [List.isEmpty_iff] using h)]

/-- Witness for C8: frequencies `[100, 300]` with magnitudes `[5, 7]`; the
interval `[50, 200)` selects only the `100` Hz bin (mean `5`), the interval
`[1000, 2000)` selects nothing (result `0`). -/
theorem C8_band_energy_mean_witness :
    _band_energy [5, 7] [100, 300] 50 200 = 5 ∧
    _band_energy [5, 7] [100, 300] 1000 2000 = 0 := by
  constructor
  · have h := (C8_band_energy_mean [5, 7] [100, 300] 50 200).2.2
      (by norm_num [band_energy_sel, List.filter])
    rw [h]
    norm_num [band_energy_sel, List.filter]
  · exact (C8_band_energy_mean [5, 7] [100, 300] 1000 2000).2.1
      (by norm_num [band_energy_sel, List.filter])

/-- C9: the degenerate numeric guards: dynamic range is `20·log10(max/min)`
only when both RMS extremes are positive and `0.0` otherwise; stereo width
and balance are `0.0` on a zero energy denominator; correlation is `1.0`
when either channel has zero variance or the buffer is empty; and zero total
band energy yields the all-zero frequency profile. -/
theorem C9_degenerate_guards :
    (∀ (log10 : ℚ → ℚ) (rms_min rms_max : ℚ),
      (0 < rms_min ∧ 0 < rms_max →
        dynamic_range_db_of log10 rms_min rms_max = 20 * log10 (rms_max / rms_min)) ∧
      (¬ (0 < rms_min ∧ 0 < rms_max) →
        dynamic_range_db_of log10 rms_min rms_max = 0)) ∧
    (∀ left right : List ℚ,
      npMean (((left.zip right).map fun p => (p.1 + p.2) / 2).map fun x => x ^ 2)
        + npMean (((left.zip right).map fun p => (p.1 - p.2) / 2).map fun x => x ^ 2) = 0 →
      stereoWidth left right = 0) ∧
    (∀ left right : List ℚ,
      npMean (left.map fun x => x ^ 2) + npMean (right.map fun x => x ^ 2) = 0 →
      stereoBalance left right = 0) ∧
    (∀ (corrcoef : List ℚ → List ℚ → ℚ) (left right : List ℚ),
      variance left = 0 ∨ variance right = 0 ∨ left = [] →
      correlation_of corrcoef left right = 1) ∧
    (∀ bm : Band → ℚ, total_energy_of bm = 0 → ∀ b, freq_profile_of bm b = 0) := by
  refine ⟨?_, ?_, ?_, ?_, ?_⟩
  · intro log10 rms_min rms_max
    constructor
    · intro h
      unfold dynamic_range_db_of
      rw [if_pos ⟨h.1, h.2⟩]
    · intro h
      unfold dynamic_range_db_of
      rw [if_neg h]
  · intro left right h
    unfold stereoWidth
    rw [if_neg (by rw [h]; exact lt_irrefl 0)]
  · intro left right h
    unfold stereoBalance
    rw [if_neg (by rw [h]; exact lt_irrefl 0)]
  · intro corrcoef left right h
    unfold correlation_of
    rcases h with h | h | h
    · split_ifs with h1 h2
      · exact absurd (h ▸ h2.1) (lt_irrefl 0)
      · rfl
      · rfl
    · split_ifs with h1 h2
      · exact absurd (h ▸ h2.2) (lt_irrefl 0)
      · rfl
      · rfl
    · rw [if_neg (by simp [h])]
  · intro bm h b
    unfold freq_profile_of
    rw [if_neg (by rw [h]; exact lt_irrefl 0)]

/-- Witness for C9 at concrete degenerate inputs: zero RMS minimum, empty
stereo buffers, an empty left channel, and an all-zero band map. -/
theorem C9_degenerate_guards_witness :
    dynamic_range_db_of (fun x => x) 0 5 = 0 ∧
    stereoWidth [] [] = 0 ∧
    stereoBalance [] [] = 0 ∧
    correlation_of (fun _ _ => 37) [] [0] = 1 ∧
    freq_profile_of (fun _ => 0) .bass = 0 :=
  ⟨(C9_degenerate_guards.1 (fun x => x) 0 5).2 (by norm_num),
   C9_degenerate_guards.2.1 [] [] (by norm_num [npMean]),
   C9_degenerate_guards.2.2.1 [] [] (by norm_num [npMean]),
   C9_degenerate_guards.2.2.2.1 (fun _ _ => 37) [] [0] (Or.inr (Or.inr rfl)),
   C9_degenerate_guards.2.2.2.2 (fun _ => 0)
     (by norm_num [total_energy_of, Band.all]) .bass⟩

/-- C1: the cohesion components computed by `evaluate` are exactly the
spec's `max(0, 100 - (dev/span)*50)` scores — for every targeted band (with
degenerate span `1.0`) and for every present scalar target (degenerate span
`0.1` for stereo width, `1.0` otherwise); the recorded band score is that
formula rounded to one decimal; and any value inside its target range scores
exactly `100`. -/
theorem C1_score_formula (analysis : AudioAnalysis) (profile : StyleProfile) :
    score_components analysis profile = specComponents analysis profile ∧
    (∀ (b : Band) (target : Range), profile.frequency_balance b = some target →
      (evaluate analysis profile).band_scores b =
        round1 (specScore target (band_map analysis.frequency_bands b) 1)) ∧
    (∀ (target : Range) (v d : ℚ), target.contains v → specScore target v d = 100) := by
  refine ⟨?_, ?_, ?_⟩
  · unfold score_components specComponents
    simp [bandScoreRaw_eq_spec, scalarScore_eq_spec]
  · intro b target h
    rw [evaluate_band_scores]
    unfold band_scores_of
    rw [h]
    simp only [bandScoreRaw_eq_spec]
  · intro target v d h
    have hd : target.deviation v = 0 :=
      (Range.contains_iff_deviation_eq_zero target v).mp h
    unfold specScore
    rw [hd]
    simp

/-- Witness for C1: a profile with a bass target `[0, 2]` and a stereo-width
target `[0, 0.5]`, measured bass energy `1` (in range). -/
theorem C1_score_formula_witness :
    score_components (mkAnalysis ⟨0, 1, 0, 0, 0, 0, 0⟩)
        (mkBassProfile ⟨0, 2⟩ none none (some ⟨0, 1/2⟩) none) =
      specComponents (mkAnalysis ⟨0, 1, 0, 0, 0, 0, 0⟩)
        (mkBassProfile ⟨0, 2⟩ none none (some ⟨0, 1/2⟩) none) ∧
    (evaluate (mkAnalysis ⟨0, 1, 0, 0, 0, 0, 0⟩)
        (mkBassProfile ⟨0, 2⟩ none none (some ⟨0, 1/2⟩) none)).band_scores .bass =
      round1 (specScore ⟨0, 2⟩ 1 1) ∧
    specScore ⟨0, 2⟩ 1 5 = 100 :=
  ⟨(C1_score_formula (mkAnalysis ⟨0, 1, 0, 0, 0, 0, 0⟩)
      (mkBassProfile ⟨0, 2⟩ none none (some ⟨0, 1/2⟩) none)).1,
   (C1_score_formula (mkAnalysis ⟨0, 1, 0, 0, 0, 0, 0⟩)
      (mkBassProfile ⟨0, 2⟩ none none (some ⟨0, 1/2⟩) none)).2.1 .bass ⟨0, 2⟩ rfl,
   (C1_score_formula (mkAnalysis ⟨0, 1, 0, 0, 0, 0, 0⟩)
      (mkBassProfile ⟨0, 2⟩ none none (some ⟨0, 1/2⟩) none)).2.2 ⟨0, 2⟩ 1 5
     ⟨by norm_num, by norm_num⟩⟩

/-- C4: an explicit role argument is used verbatim and auto-classification is
never applied; with no explicit role, the role is `_classify_role`, which is
exactly the spec's fixed first-match decision order (percussion, texture,
bass, pad, lead, default lead). -/
theorem C4_role_resolution :
    (∀ (analysis : AudioAnalysis) (profile : StyleProfile) (r : String),
      (audition analysis profile (some r)).role = r) ∧
    (∀ (analysis : AudioAnalysis) (profile : StyleProfile),
      (audition analysis profile none).role =
        _classify_role analysis (freq_profile_of (band_map analysis.frequency_bands))) ∧
    (∀ (analysis : AudioAnalysis) (fp : Band → ℚ),
      _classify_role analysis fp = classifyRoleSpec analysis fp) :=
  ⟨fun _ _ _ => rfl, fun _ _ => rfl, fun _ _ => rfl⟩

/-- C3: the cohesion score is the 1-decimal-rounded arithmetic mean of
exactly the contributed components (one per targeted band, one per present
scalar target — an untargeted metric contributes nothing, and an untargeted
band scores `100`); with no targets at all it is `100.0`; and when every
present target contains its measured value the cohesion score is `100` and
the issue list is empty. -/
theorem C3_cohesion_mean (analysis : AudioAnalysis) (profile : StyleProfile) :
    ((evaluate analysis profile).cohesion_score =
      if (score_components analysis profile).isEmpty then 100
      else round1 ((score_components analysis profile).sum /
        (score_components analysis profile).length)) ∧
    ((score_components analysis profile).length =
      (Band.all.filter fun b => (profile.frequency_balance b).isSome).length
        + (if profile.dynamic_range_db.isSome then 1 else 0)
        + (if profile.brightness.isSome then 1 else 0)
        + (if profile.stereo_width.isSome then 1 else 0)) ∧
    (∀ b, profile.frequency_balance b = none →
      (evaluate analysis profile).band_scores b = 100) ∧
    ((∀ b, profile.frequency_balance b = none) → profile.dynamic_range_db = none →
      profile.brightness = none → profile.stereo_width = none →
      (evaluate analysis profile).cohesion_score = 100) ∧
    ((∀ b target, profile.frequency_balance b = some target →
        target.contains (band_map analysis.frequency_bands b)) →
      (∀ target, profile.dynamic_range_db = some target →
        target.contains analysis.loudness.dynamic_range_db) →
      (∀ target, profile.brightness = some target →
        target.contains analysis.spectral.centroid_mean) →
      (∀ target, profile.stereo_width = some target →
        target.contains analysis.stereo.width) →
      (evaluate analysis profile).cohesion_score = 100 ∧
        (evaluate analysis profile).issues = []) := by
  refine ⟨evaluate_cohesion analysis profile, ?_, ?_, ?_, ?_⟩
  · unfold score_components
    rw [List.length_append, List.length_append, List.length_append,
      length_filterMap_map, length_option_toList, length_option_toList,
      length_option_toList]
  · intro b h
    rw [evaluate_band_scores]
    unfold band_scores_of
    rw [h]
  · intro hfb hdr' hbr' hsw'
    have hempty : score_components analysis profile = [] := by
      unfold score_components
      rw [hdr', hbr', hsw']
      simp only [Option.map_none', Option.toList_none, List.append_nil]
      rw [List.filterMap_eq_nil_iff]
      intro b _
      rw [hfb b]
      rfl
    rw [evaluate_cohesion, hempty]
    rfl
  · intro hbc hdrc hbrc hswc
    constructor
    · rw [evaluate_cohesion]
      by_cases hc : (score_components analysis profile).isEmpty
      · rw [if_pos hc]
      · rw [if_neg hc]
        have hall := score_components_all_100 analysis profile hbc hdrc hbrc hswc
        have hsum := sum_of_all_100 _ hall
        have hlen : (score_components analysis profile).length ≠ 0 := by
          simpa [List.isEmpty_iff, List.length_eq_zero] using hc
        rw [hsum, mul_div_assoc,
          div_self (by exact_mod_cast hlen : ((score_components analysis profile).length : ℚ) ≠ 0),
          mul_one]
        exact round1_100
    · rw [evaluate_issues_eq]
      exact evaluate_issues_all_contained analysis profile hbc hdrc hbrc hswc

/-- Witness for C3: a profile with a single bass target `[0, 2]` containing
the measured bass energy `1` — the untargeted `mid` band scores `100`, the
cohesion score is `100`, and no issues are emitted. -/
theorem C3_cohesion_mean_witness :
    (evaluate (mkAnalysis ⟨0, 1, 0, 0, 0, 0, 0⟩)
        (mkBassProfile ⟨0, 2⟩ none none none none)).band_scores .mid = 100 ∧
    (evaluate (mkAnalysis ⟨0, 1, 0, 0, 0, 0, 0⟩)
        (mkBassProfile ⟨0, 2⟩ none none none none)).cohesion_score = 100 ∧
    (evaluate (mkAnalysis ⟨0, 1, 0, 0, 0, 0, 0⟩)
        (mkBassProfile ⟨0, 2⟩ none none none none)).issues = [] := by
  have h := C3_cohesion_mean (mkAnalysis ⟨0, 1, 0, 0, 0, 0, 0⟩)
    (mkBassProfile ⟨0, 2⟩ none none none none)
  have h5 := h.2.2.2.2
    (by
      intro b t ht
      cases b <;> simp only [mkBassProfile] at ht <;> simp_all [mkAnalysis, band_map]
      norm_num [Range.contains, ← ht])
    (by intro t ht; exact absurd ht (by simp [mkBassProfile]))
    (by intro t ht; exact absurd ht (by simp [mkBassProfile]))
    (by intro t ht; exact absurd ht (by simp [mkBassProfile]))
  exact ⟨h.2.2.1 .mid rfl, h5.1, h5.2⟩

/-- C6: the avoid-band penalty `max(0, 100 - (avoid_sum - 0.15)*400)` joins
the fit components iff the summed avoid-band proportion exceeds `0.15`, and a
medium-severity `role_conflict` issue is emitted for an avoid band iff that
combined-sum condition holds AND the band's own proportion exceeds `0.10` —
two distinct thresholds. -/
theorem C6_avoid_thresholds (analysis : AudioAnalysis) (profile : StyleProfile)
    (role? : Option String) :
    (∀ (role : String) (fp : Band → ℚ),
      (((_role_band_affinity role).2.map fp).sum > 0.15 →
        fit_components_of role fp =
          [min 100 (((_role_band_affinity role).1.map fp).sum * 200),
           max 0 (100 - (((_role_band_affinity role).2.map fp).sum - 0.15) * 400)]) ∧
      (¬ ((_role_band_affinity role).2.map fp).sum > 0.15 →
        fit_components_of role fp =
          [min 100 (((_role_band_affinity role).1.map fp).sum * 200)])) ∧
    (∀ b : Band,
      (∃ i ∈ (audition analysis profile role?).issues,
        i.category = "role_conflict" ∧ i.severity = "medium" ∧ i.band = some b) ↔
      (((_role_band_affinity ((audition analysis profile role?).role)).2.map
          (freq_profile_of (band_map analysis.frequency_bands))).sum > 0.15 ∧
        b ∈ (_role_band_affinity ((audition analysis profile role?).role)).2 ∧
        freq_profile_of (band_map analysis.frequency_bands) b > 0.1)) := by
  constructor
  · intro role fp
    constructor
    · intro h
      unfold fit_components_of
      rw [if_pos h]
    · intro h
      unfold fit_components_of
      rw [if_neg h]
  · intro b
    rw [audition_issues_eq]
    set role := (audition analysis profile role?).role with hrole
    set fp := freq_profile_of (band_map analysis.frequency_bands) with hfpdef
    set avoid := (_role_band_affinity role).2 with havoid
    constructor
    · rintro ⟨i, hi, hcat, hsev, hband⟩
      rcases List.mem_append.mp hi with h | h
      · by_cases hgt : (avoid.map fp).sum > 0.15
        · rw [if_pos hgt] at h
          unfold role_conflict_issues at h
          obtain ⟨b', hb', hsome⟩ := List.mem_filterMap.mp h
          by_cases hfp' : fp b' > 0.1
          · rw [if_pos hfp'] at hsome
            injection hsome with hrec
            subst hrec
            have hbb : b' = b := Option.some_inj.mp hband
            subst hbb
            exact ⟨hgt, hb', hfp'⟩
          · rw [if_neg hfp'] at hsome
            cases hsome
        · rw [if_neg hgt] at h
          cases h
      · exfalso
        unfold style_fit_issues at h
        obtain ⟨b', hb', hsome⟩ := List.mem_filterMap.mp h
        cases ht : profile.frequency_balance b' with
        | none =>
          simp only [ht] at hsome
          cases hsome
        | some t =>
          simp only [ht] at hsome
          by_cases hgt2 : band_map analysis.frequency_bands b' > t.high * 1.5
          · rw [if_pos hgt2] at hsome
            injection hsome with hrec
            subst hrec
            simp at hcat
          · rw [if_neg hgt2] at hsome
            cases hsome
    · rintro ⟨hgt, hb, hfp'⟩
      refine ⟨{ category := "role_conflict", severity := "medium", band := some b,
                suggestion := _role_conflict_suggestion role b }, ?_, rfl, rfl, rfl⟩
      apply List.mem_append_left
      rw [if_pos hgt]
      unfold role_conflict_issues
      exact List.mem_filterMap.mpr ⟨b, hb, by rw [if_pos hfp']⟩

/-- Witness for C6: an explicit `bass` role with band energies bass `8` and
upper-mid `2`: the avoid-band sum is `0.2 > 0.15` (penalty contributes) and
the upper-mid proportion is `0.2 > 0.1` (a medium `role_conflict` issue for
`upper_mid` is emitted). -/
theorem C6_avoid_thresholds_witness :
    fit_components_of "bass"
        (freq_profile_of (band_map (mkAnalysis ⟨0, 8, 0, 0, 2, 0, 0⟩).frequency_bands)) =
      [min 100 (((_role_band_affinity "bass").1.map
          (freq_profile_of (band_map (mkAnalysis ⟨0, 8, 0, 0, 2, 0, 0⟩).frequency_bands))).sum * 200),
       max 0 (100 - ((((_role_band_affinity "bass").2.map
          (freq_profile_of (band_map (mkAnalysis ⟨0, 8, 0, 0, 2, 0, 0⟩).frequency_bands))).sum - 0.15) * 400))] ∧
    (∃ i ∈ (audition (mkAnalysis ⟨0, 8, 0, 0, 2, 0, 0⟩)
        (mkBassProfile ⟨0, 2⟩ none none none none) (some "bass")).issues,
      i.category = "role_conflict" ∧ i.severity = "medium" ∧ i.band = some Band.upper_mid) := by
  have hae : (((_role_band_affinity "bass").2.map
      (freq_profile_of (band_map (mkAnalysis ⟨0, 8, 0, 0, 2, 0, 0⟩).frequency_bands))).sum
        : ℚ) > 0.15 := by
    norm_num [_role_band_affinity, freq_profile_of, total_energy_of, band_map,
      mkAnalysis, Band.all]
  constructor
  · exact ((C6_avoid_thresholds (mkAnalysis ⟨0, 8, 0, 0, 2, 0, 0⟩)
      (mkBassProfile ⟨0, 2⟩ none none none none) (some "bass")).1 "bass" _).1 hae
  · refine ((C6_avoid_thresholds (mkAnalysis ⟨0, 8, 0, 0, 2, 0, 0⟩)
      (mkBassProfile ⟨0, 2⟩ none none none none) (some "bass")).2 .upper_mid).mpr
      ⟨?_, ?_, ?_⟩
    · simpa only [audition_role_eq, Option.getD_some] using hae
    · simp [audition_role_eq, _role_band_affinity]
    · norm_num [freq_profile_of, total_energy_of, band_map, mkAnalysis, Band.all]

/-- C5: with non-zero total band energy the normalized frequency profile sums
to exactly `1` (and its reported 4-decimal rounding sums to `1` within
`±0.01`); with zero total energy the reported profile is all-zero; the
dominant-band list is the greedy descending-sort accumulation, every one of
its members has positive proportion, every proper prefix of it sums below
`0.7`, and it stops exactly at the first reach-or-exceed of `0.7` (its total
reaches `0.7`, or it has exhausted every positive-proportion band). -/
theorem C5_freq_profile_normalization (analysis : AudioAnalysis)
    (profile : StyleProfile) (role? : Option String) :
    (0 < total_energy_of (band_map analysis.frequency_bands) →
      (Band.all.map (freq_profile_of (band_map analysis.frequency_bands))).sum = 1 ∧
      |(Band.all.map (audition analysis profile role?).frequency_profile).sum - 1|
        ≤ 1 / 100) ∧
    (total_energy_of (band_map analysis.frequency_bands) = 0 →
      ∀ b, (audition analysis profile role?).frequency_profile b = 0) ∧
    ((audition analysis profile role?).dominant_bands =
      dominantLoop (sorted_bands (freq_profile_of (band_map analysis.frequency_bands))) 0) ∧
    (∀ b ∈ (audition analysis profile role?).dominant_bands,
      freq_profile_of (band_map analysis.frequency_bands) b > 0) ∧
    (∀ n < (audition analysis profile role?).dominant_bands.length,
      (((audition analysis profile role?).dominant_bands.take n).map
        (freq_profile_of (band_map analysis.frequency_bands))).sum < 0.7) ∧
    ((((audition analysis profile role?).dominant_bands.map
        (freq_profile_of (band_map analysis.frequency_bands))).sum ≥ 0.7) ∨
      (∀ b, freq_profile_of (band_map analysis.frequency_bands) b > 0 →
        b ∈ (audition analysis profile role?).dominant_bands)) := by
  obtain ⟨hpos, hpre, hstop⟩ :=
    dominantLoop_spec (freq_profile_of (band_map analysis.frequency_bands))
      (sorted_bands (freq_profile_of (band_map analysis.frequency_bands))) 0
      (sorted_bands_mem_snd _) (by norm_num)
  refine ⟨?_, ?_, rfl, ?_, ?_, ?_⟩
  · intro h
    refine ⟨sum_freq_profile_eq_one _ h, ?_⟩
    rw [audition_freq_profile_eq]
    exact sum_round4_close _ h
  · intro h b
    rw [audition_freq_profile_eq]
    have hz : freq_profile_of (band_map analysis.frequency_bands) b = 0 := by
      unfold freq_profile_of
      rw [if_neg (by rw [h]; exact lt_irrefl 0)]
    show round4 (freq_profile_of (band_map analysis.frequency_bands) b) = 0
    rw [hz]
    norm_num [round4, round_eq]
  · intro b hb
    rw [audition_dominant_eq] at hb
    exact hpos b hb
  · intro n hn
    rw [audition_dominant_eq] at hn ⊢
    have hval := hpre n hn
    simpa using hval
  · rw [audition_dominant_eq]
    rcases hstop with h | h
    · left
      simpa using h
    · right
      intro b hbp
      exact h (b, freq_profile_of (band_map analysis.frequency_bands) b)
        (sorted_bands_mem _ b) hbp

/-- Witness for C5: band energies `(1, 6, 0, 0, 0, 3, 0)` (total `10`) —
the profile sums to `1`, its rounding to within `0.01` of `1`; the all-zero
band map reports an all-zero profile; and `bass` (proportion `0.6`) is a
dominant band with positive proportion. -/
theorem C5_freq_profile_normalization_witness :
    ((Band.all.map (freq_profile_of
        (band_map (mkAnalysis ⟨1, 6, 0, 0, 0, 3, 0⟩).frequency_bands))).sum = 1 ∧
      |(Band.all.map (audition (mkAnalysis ⟨1, 6, 0, 0, 0, 3, 0⟩)
          (mkBassProfile ⟨0, 2⟩ none none none none) none).frequency_profile).sum - 1|
        ≤ 1 / 100) ∧
    (audition (mkAnalysis ⟨0, 0, 0, 0, 0, 0, 0⟩)
        (mkBassProfile ⟨0, 2⟩ none none none none) none).frequency_profile .bass = 0 ∧
    freq_profile_of (band_map (mkAnalysis ⟨1, 6, 0, 0, 0, 3, 0⟩).frequency_bands)
      .bass > 0 := by
  refine ⟨(C5_freq_profile_normalization (mkAnalysis ⟨1, 6, 0, 0, 0, 3, 0⟩)
      (mkBassProfile ⟨0, 2⟩ none none none none) none).1
      (by norm_num [total_energy_of, band_map, mkAnalysis, Band.all]),
    (C5_freq_profile_normalization (mkAnalysis ⟨0, 0, 0, 0, 0, 0, 0⟩)
      (mkBassProfile ⟨0, 2⟩ none none none none) none).2.1
      (by norm_num [total_energy_of, band_map, mkAnalysis, Band.all]) .bass,
    (C5_freq_profile_normalization (mkAnalysis ⟨1, 6, 0, 0, 0, 3, 0⟩)
      (mkBassProfile ⟨0, 2⟩ none none none none) none).2.2.2.1 .bass ?_⟩
  rw [audition_dominant_eq]
  norm_num [dominant_of, sorted_bands, Band.all, List.insertionSort,
    List.orderedInsert, freq_profile_of, total_energy_of, band_map, mkAnalysis,
    dominantLoop]

end Rubin
